import Mathlib

/-!
Verification of the libmonzo OAuth callback coordinator and client helpers.

The definitions below are a shallow embedding of the Python sources
`libmonzo/utilities.py` and `libmonzo/monzo.py`: pure shared helpers from
`urllib.parse` are embedded as Lean functions on character lists, the
`OAuthServer` instance state becomes an explicit record threaded through the
operations, and fallible paths are represented by explicit outcome types.
-/

/-! ## Query-string parsing (`urllib.parse` collaborators)

`OAuthServer.wait_for_call` uses `urllib.parse.urlparse(path).query` and
`urllib.parse.parse_qs(query)`.  The embedding below follows the CPython
implementations with default arguments (`keep_blank_values=False`,
separator `&`): empty fields, fields without `=`, and fields with an empty
value are all dropped; names and values are `+`-and-percent decoded.
Percent escapes are decoded bytewise to the character of that code point
(multi-byte UTF-8 sequences are outside the scope of the claims checked
here); a malformed escape is kept literally, as CPython does.
-/

/-- Split a character list at every occurrence of `c`, like Python
`str.split(c)`: the empty input yields one empty field. -/
def splitOnChar (c : Char) : List Char → List (List Char)
  | [] => [[]]
  | x :: xs =>
    match splitOnChar c xs with
    | [] => if x = c then [[], []] else [[x]]
    | r :: rs => if x = c then [] :: r :: rs else (x :: r) :: rs

/-- Split at the first occurrence of `c`, like Python `str.split(c, 1)`:
`none` when `c` does not occur, otherwise the (head, tail) pieces. -/
def splitFirstChar (c : Char) : List Char → Option (List Char × List Char)
  | [] => none
  | x :: xs =>
    if x = c then some ([], xs)
    else (splitFirstChar c xs).map (fun p => (x :: p.1, p.2))

/-- Numeric value of a hexadecimal digit, as accepted by CPython `unquote`. -/
def hexDigitVal (c : Char) : Option Nat :=
  if '0' ≤ c ∧ c ≤ '9' then some (c.toNat - '0'.toNat)
  else if 'a' ≤ c ∧ c ≤ 'f' then some (c.toNat - 'a'.toNat + 10)
  else if 'A' ≤ c ∧ c ≤ 'F' then some (c.toNat - 'A'.toNat + 10)
  else none

/-- Percent-decoding of `%XX` escapes; malformed escapes are left literal,
as in CPython `urllib.parse.unquote`. -/
def percentDecode : List Char → List Char
  | [] => []
  | '%' :: a :: b :: rest =>
    match hexDigitVal a, hexDigitVal b with
    | some hi, some lo => Char.ofNat (16 * hi + lo) :: percentDecode rest
    | _, _ => '%' :: percentDecode (a :: b :: rest)
  | c :: rest => c :: percentDecode rest

/-- The `+`-to-space replacement applied by `parse_qsl` before unquoting. -/
def plusToSpace (l : List Char) : List Char :=
  l.map (fun c => if c = '+' then ' ' else c)

/-- CPython `unquote_plus`: replace `+` by a space, then percent-decode. -/
def unquote_plus (s : String) : String :=
  String.mk (percentDecode (plusToSpace s.toList))

/-- One `name=value` field of a query string, as treated by CPython
`parse_qsl` with `keep_blank_values=False`: empty fields, fields without
`=`, and fields with an empty value produce nothing. -/
def parsePair (pair : List Char) : Option (String × String) :=
  if pair = [] then none
  else
    match splitFirstChar '=' pair with
    | none => none
    | some (name, value) =>
      if value = [] then none
      else some (unquote_plus (String.mk name), unquote_plus (String.mk value))

/-- CPython `urllib.parse.parse_qsl(qs)` with default arguments. -/
def parse_qsl (qs : String) : List (String × String) :=
  (splitOnChar '&' qs.toList).filterMap parsePair

/-- Append a value under a key in an association of key/value-list pairs,
mirroring `parsed_result[name].append(value)` on a Python insertion-ordered
dict: the first entry with the key is extended, otherwise a new entry is
added at the end. -/
def addPair (m : List (String × List String)) (k v : String) :
    List (String × List String) :=
  match m with
  | [] => [(k, [v])]
  | (k', vs) :: rest =>
    if k' = k then (k', vs ++ [v]) :: rest else (k', vs) :: addPair rest k v

/-- CPython `urllib.parse.parse_qs(qs)`: group the `parse_qsl` pairs into a
name-to-value-list mapping preserving insertion order. -/
def parse_qs (qs : String) : List (String × List String) :=
  (parse_qsl qs).foldl (fun m kv => addPair m kv.1 kv.2) []

/-- Dictionary lookup on the embedded mapping: `m[k]` when present. -/
def qsGet (m : List (String × List String)) (k : String) : Option (List String) :=
  match m with
  | [] => none
  | (k', vs) :: rest => if k' = k then some vs else qsGet rest k

/-- The ordered sequence of values carried by key `k` in a list of
name/value pairs; the specification-level reading of "each name maps to the
ordered sequence of its string values". -/
def valuesFor (k : String) (l : List (String × String)) : List String :=
  l.filterMap (fun kv => if kv.1 = k then some kv.2 else none)

/-- The query component extracted by `urllib.parse.urlparse`: everything
after the first `?` once the `#`-fragment has been removed. -/
def urlparseQuery (url : String) : String :=
  let noFragment :=
    match splitFirstChar '#' url.toList with
    | some p => p.1
    | none => url.toList
  match splitFirstChar '?' noFragment with
  | some p => String.mk p.2
  | none => ""

/-! ## `OAuthServer` (`libmonzo/utilities.py`)

The server's shared mutable state is the pair of flags `_cancelled` /
`_completed` and the captured `path`.  All accesses in the source happen
under one exclusive lock, so each locked section is embedded as one atomic
state transformation.
-/

/-- The mutable coordinator state of `OAuthServer`: `_cancelled`,
`_completed` and the captured `self.path` (absent until a callback). -/
structure OAuthServer where
  cancelled : Bool
  completed : Bool
  path : Option String
deriving DecidableEq

/-- `OAuthServer.__init__`: both flags start false, no path captured. -/
def OAuthServer.init : OAuthServer :=
  { cancelled := false, completed := false, path := none }

/-- `OAuthServer.handler_callback(path)`: unconditionally sets
`_completed = True` and stores the path; the source has no check of an
already-terminal state. -/
def OAuthServer.handler_callback (s : OAuthServer) (p : String) : OAuthServer :=
  { s with completed := true, path := some p }

/-- `OAuthServer.stop()`: unconditionally sets `_cancelled = True`. -/
def OAuthServer.stop (s : OAuthServer) : OAuthServer :=
  { s with cancelled := true }

/-- The externally triggered mutating operations on a coordinator
instance: an inbound request firing `handler_callback`, or `stop`.
(`wait_for_call` only reads the state.) -/
inductive ServerEvent where
  | callback (path : String)
  | stop
deriving DecidableEq

/-- Run a sequence of mutating events against a coordinator state. -/
def runEvents (s : OAuthServer) : List ServerEvent → OAuthServer
  | [] => s
  | ServerEvent.callback p :: rest => runEvents (s.handler_callback p) rest
  | ServerEvent.stop :: rest => runEvents s.stop rest

/-- Outcome of `OAuthServer.wait_for_call` once its polling loop has
exited: `None`, a parsed parameter mapping, or the
`raise Exception("Call should be cancelled or completed by this point")`. -/
inductive WaitResult where
  | cancelledNone
  | completedParams (params : List (String × List String))
  | invariantViolation
deriving DecidableEq

/-- The post-loop dispatch of `OAuthServer.wait_for_call`, performed under
the lock on the state observed when the loop exits: `_cancelled` is checked
first, then `_completed` (parsing `urlparse(self.path).query` with
`parse_qs`), and otherwise the call raises.  `self.path` is only read on
the completed branch; `getD ""` stands for the attribute read, which in
every reachable completed state holds the captured path. -/
def OAuthServer.wait_for_call_exit (s : OAuthServer) : WaitResult :=
  if s.cancelled then WaitResult.cancelledNone
  else if s.completed then
    WaitResult.completedParams (parse_qs (urlparseQuery (s.path.getD "")))
  else WaitResult.invariantViolation

/-! ## Random tokens (`libmonzo/utilities.py`)

`random_string` draws each character with `secrets.choice` from the module
constant `_SECRETS_ALPHABET`.  The randomness source is embedded as an
oracle `pick` selecting an index into the alphabet for every position.
-/

/-- The module constant `_SECRETS_ALPHABET` of `libmonzo/utilities.py`,
copied verbatim. -/
def _SECRETS_ALPHABET : String :=
  "ABCDEFGHIJKLMNPQRSTUVWXYZabcdefghjkmnpqrstuvwxyz23456789"

/-- The alphabet as a character list. -/
def alphabetList : List Char := _SECRETS_ALPHABET.toList

/-- `random_string(length)`: join of `length` characters chosen from
`_SECRETS_ALPHABET`; the choices made by `secrets.choice` are supplied by
the oracle `pick`. -/
def random_string (pick : Nat → Fin alphabetList.length) (length : Nat) : String :=
  String.mk ((List.range length).map (fun i => alphabetList.get (pick i)))

/-! ## `MonzoClient.authenticate` (`libmonzo/monzo.py`)

The part of `authenticate` that follows `server.wait_for_call()` is a pure
function of the returned parameters and of the client's `state_token`: it
either raises (`MonzoAPIError`, a `KeyError` from a dict lookup, or one of
the two plain `Exception`s) or reaches the token-exchange POST with a
form-encoded body.  Note that `parameters["code"]` is the *list* of values
produced by `parse_qs`; the source passes that list on as the `code` field.
-/

/-- The class constant `MonzoClient.REDIRECT_PORT`. -/
def REDIRECT_PORT : Nat := 36453

/-- The class constant `MonzoClient.REDIRECT_PATH`. -/
def REDIRECT_PATH : String := "monzo_callback"

/-- `MonzoClient.redirect_uri()`. -/
def redirect_uri : String :=
  "http://localhost:" ++ toString REDIRECT_PORT ++ "/" ++ REDIRECT_PATH

/-- The form-encoded body of the token-exchange POST built in
`authenticate`.  The `code` field carries whatever
`parameters["code"]` held, which is a list of strings. -/
structure TokenRequestBody where
  grant_type : String
  client_id : String
  client_secret : String
  redirect_uri : String
  code : List String
deriving DecidableEq

/-- How `authenticate` leaves its critical section: one of the four raise
sites, or the token-exchange POST with its body. -/
inductive AuthOutcome where
  | apiError (message : String)
  | keyError (key : String)
  | invalidStateError
  | stateMismatchError
  | tokenExchange (body : TokenRequestBody)
deriving DecidableEq

/-- Whether an outcome is the token-exchange POST. -/
def AuthOutcome.isExchange : AuthOutcome → Bool
  | AuthOutcome.tokenExchange _ => true
  | _ => false

/-- The tail of `MonzoClient.authenticate` after `server.wait_for_call()`
returns.  `None` raises `MonzoAPIError`; then `parameters["code"]` and
`parameters["state"]` are dict lookups raising `KeyError` when absent;
`len(parameters["state"]) != 1` raises `Exception("Invalid return state")`;
a state value different from `self.state_token` raises
`Exception("State did not match")`; otherwise the POST body is built.
(`headD ""` stands for `parameters["state"][0]`, whose index is guarded by
the length check.) -/
def authenticate_after_wait (state_token client_id client_secret : String)
    (parameters : Option (List (String × List String))) : AuthOutcome :=
  match parameters with
  | none =>
    AuthOutcome.apiError
      "Failed to authenticate correctly. The response parameters were invalid."
  | some params =>
    match qsGet params "code" with
    | none => AuthOutcome.keyError "code"
    | some authorization_code =>
      match qsGet params "state" with
      | none => AuthOutcome.keyError "state"
      | some stateValues =>
        if stateValues.length ≠ 1 then AuthOutcome.invalidStateError
        else
          let state_value := stateValues.headD ""
          if state_token ≠ state_value then AuthOutcome.stateMismatchError
          else
            AuthOutcome.tokenExchange
              { grant_type := "authorization_code"
                client_id := client_id
                client_secret := client_secret
                redirect_uri := redirect_uri
                code := authorization_code }

/-- The client's stored `access_token` after `authenticate` finishes or
raises: `self.access_token = data["access_token"]` runs only on the
token-exchange path; every raise leaves the previous value in place. -/
def access_token_after (previous : Option String) (outcome : AuthOutcome)
    (exchanged : String) : Option String :=
  match outcome with
  | AuthOutcome.tokenExchange _ => some exchanged
  | _ => previous

/-! ## Pot deposits and withdrawals (`libmonzo/monzo.py`)

`deposit_into_pot` and `withdraw_from_pot` each declare
`dedupe_id: str = utilities.random_string(20)`.  Python evaluates a default
argument once, when the `def` statement runs; these two tokens are
therefore fixed at module import and shared by every later call that omits
the argument.  The model draws them once at module initialisation. -/

/-- The default `dedupe_id` values of `deposit_into_pot` and
`withdraw_from_pot`, each a `random_string(20)` evaluated a single time
when the method definitions execute. -/
structure MonzoModuleDefaults where
  deposit_dedupe_default : String
  withdraw_dedupe_default : String

/-- Module initialisation: the two default tokens are drawn once from the
random oracle. -/
def moduleDefaults (pickD pickW : Nat → Fin alphabetList.length) :
    MonzoModuleDefaults :=
  { deposit_dedupe_default := random_string pickD 20
    withdraw_dedupe_default := random_string pickW 20 }

/-- The PUT body of a pot deposit or withdrawal: the account involved, the
amount, and the dedupe token actually sent. -/
structure PotMoveRequest where
  account_id : String
  amount : Int
  dedupe_id : String
deriving DecidableEq

/-- `MonzoClient.deposit_into_pot`: an omitted `dedupe_id` falls back to
the definition-time default token. -/
def deposit_into_pot (d : MonzoModuleDefaults) (source_account_id : String)
    (amount : Int) (dedupe_id : Option String) : PotMoveRequest :=
  { account_id := source_account_id
    amount := amount
    dedupe_id := dedupe_id.getD d.deposit_dedupe_default }

/-- `MonzoClient.withdraw_from_pot`: an omitted `dedupe_id` falls back to
the definition-time default token. -/
def withdraw_from_pot (d : MonzoModuleDefaults) (destination_account_id : String)
    (amount : Int) (dedupe_id : Option String) : PotMoveRequest :=
  { account_id := destination_account_id
    amount := amount
    dedupe_id := dedupe_id.getD d.withdraw_dedupe_default }

/-! ## `MonzoClient._handle_response` (`libmonzo/monzo.py`) -/

/-- The exception classes of `libmonzo/exceptions.py` that
`_handle_response` can raise. -/
inductive MonzoError where
  | monzoBadRequestError
  | monzoUnauthorizedError
  | monzoForbiddenError
  | monzoNotFoundError
  | monzoMethodNotAllowedError
  | monzoNotAcceptableError
  | monzoTooManyRequestsError
  | monzoInternalServerError
  | monzoGatewayTimeoutError
  | monzoAPIError
deriving DecidableEq

/-- The response object as `_handle_response` consumes it: its
`status_code` and `text`. -/
structure HttpResponse where
  status_code : Nat
  text : String
deriving DecidableEq

/-- The `error_map` dictionary of `_handle_response`, as `dict.get`:
`some` of the dedicated class for the nine listed statuses, else `none`. -/
def error_map (status : Nat) : Option MonzoError :=
  if status = 400 then some MonzoError.monzoBadRequestError
  else if status = 401 then some MonzoError.monzoUnauthorizedError
  else if status = 403 then some MonzoError.monzoForbiddenError
  else if status = 404 then some MonzoError.monzoNotFoundError
  else if status = 405 then some MonzoError.monzoMethodNotAllowedError
  else if status = 406 then some MonzoError.monzoNotAcceptableError
  else if status = 429 then some MonzoError.monzoTooManyRequestsError
  else if status = 500 then some MonzoError.monzoInternalServerError
  else if status = 504 then some MonzoError.monzoGatewayTimeoutError
  else none

/-- The f-string `f"Error fetching request: ({response.status_code}): {response.text}"`. -/
def response_error_text (response : HttpResponse) : String :=
  "Error fetching request: (" ++ toString response.status_code ++ "): "
    ++ response.text

/-- `MonzoClient._handle_response`: a status outside `[200, 300)` raises
`error_map.get(status, MonzoAPIError)` with the formatted message; any
other response is returned unchanged. -/
def _handle_response (response : HttpResponse) :
    Except (MonzoError × String) HttpResponse :=
  if response.status_code < 200 ∨ response.status_code ≥ 300 then
    Except.error ((error_map response.status_code).getD MonzoError.monzoAPIError,
      response_error_text response)
  else Except.ok response

/-! ## Lemmas about the grouped query mapping -/

/-- Looking up the inserted key after `addPair` yields the previous values
extended by the new one. -/
theorem qsGet_addPair_eq (m : List (String × List String)) (k v : String) :
    qsGet (addPair m k v) k = some ((qsGet m k).getD [] ++ [v]) := by
  induction m with
  | nil => simp [addPair, qsGet]
  | cons kv rest ih =>
    obtain ⟨k', vs⟩ := kv
    by_cases h : k' = k
    · simp [addPair, qsGet, h]
    · simp [addPair, qsGet, h, ih]

/-- `addPair` leaves every other key untouched. -/
theorem qsGet_addPair_ne (m : List (String × List String)) (k v k' : String)
    (h : k' ≠ k) : qsGet (addPair m k v) k' = qsGet m k' := by
  induction m with
  | nil => simp [addPair, qsGet, Ne.symm h]
  | cons kv rest ih =>
    obtain ⟨k₀, vs⟩ := kv
    by_cases h0 : k₀ = k
    · subst h0
      simp [addPair, qsGet, Ne.symm h]
    · simp [addPair, qsGet, h0, ih]

/-- A pair with the looked-up key contributes its value at the front. -/
theorem valuesFor_cons_eq (k v : String) (rest : List (String × String)) :
    valuesFor k ((k, v) :: rest) = v :: valuesFor k rest := by
  simp [valuesFor]

/-- A pair with a different key contributes nothing. -/
theorem valuesFor_cons_ne (k k₁ v : String) (rest : List (String × String))
    (h : k₁ ≠ k) : valuesFor k ((k₁, v) :: rest) = valuesFor k rest := by
  simp [valuesFor, h]

/-- Folding `addPair` over a pair list appends, key by key, exactly the
ordered values carried by that key. -/
theorem qsGet_foldl (l : List (String × String))
    (m : List (String × List String)) (k : String) :
    qsGet (l.foldl (fun acc kv => addPair acc kv.1 kv.2) m) k =
      match qsGet m k with
      | some vs => some (vs ++ valuesFor k l)
      | none => if valuesFor k l = [] then none else some (valuesFor k l) := by
  induction l generalizing m with
  | nil => cases h : qsGet m k <;> simp [valuesFor, h]
  | cons kv rest ih =>
    obtain ⟨k₁, v₁⟩ := kv
    simp only [List.foldl_cons]
    rw [ih (addPair m k₁ v₁)]
    by_cases hk : k₁ = k
    · subst hk
      rw [qsGet_addPair_eq, valuesFor_cons_eq]
      cases h : qsGet m k₁ <;> simp [h]
    · rw [qsGet_addPair_ne m k₁ v₁ k (Ne.symm hk), valuesFor_cons_ne k k₁ v₁ rest hk]

/-- The grouped mapping of a query string holds, under each key, precisely
the ordered values of that key among the parsed pairs. -/
theorem qsGet_parse_qs (qs k : String) :
    qsGet (parse_qs qs) k =
      if valuesFor k (parse_qsl qs) = [] then none
      else some (valuesFor k (parse_qsl qs)) := by
  have h := qsGet_foldl (parse_qsl qs) [] k
  simpa [parse_qs, qsGet] using h

/-! ## Claims about the coordinator state machine -/

/-- Claim C1 counterexample: starting from a fresh coordinator, one
`handler_callback` followed by `stop` leaves BOTH terminal flags true, so
it is false that at most one of `completed`/`cancelled` ever becomes true,
and `stop` after completion is not a no-op on the state. -/
theorem claim_C1_counterexample :
    (runEvents OAuthServer.init
      [ServerEvent.callback "/monzo_callback?code=A&state=B",
       ServerEvent.stop]).completed = true ∧
    (runEvents OAuthServer.init
      [ServerEvent.callback "/monzo_callback?code=A&state=B",
       ServerEvent.stop]).cancelled = true ∧
    runEvents OAuthServer.init
      [ServerEvent.callback "/monzo_callback?code=A&state=B",
       ServerEvent.stop] ≠
      runEvents OAuthServer.init
        [ServerEvent.callback "/monzo_callback?code=A&state=B"] := by
  refine ⟨rfl, rfl, ?_⟩
  decide

/-- Claim C1 (amended): `stop` unconditionally sets the cancelled flag —
it never clears `completed` or the captured path, but after a completing
callback a later `stop` leaves the instance with both terminal flags
true, so the two flags are not mutually exclusive. -/
theorem claim_C1_amended (s : OAuthServer) (p : String) :
    (s.stop).cancelled = true ∧
    (s.stop).completed = s.completed ∧
    (s.stop).path = s.path ∧
    ((s.handler_callback p).stop).completed = true ∧
    ((s.handler_callback p).stop).cancelled = true :=
  ⟨rfl, rfl, rfl, rfl, rfl⟩

/-- Claim C2 counterexample: after two `handler_callback` invocations the
stored path is the SECOND one — the duplicate is not discarded. -/
theorem claim_C2_counterexample :
    (OAuthServer.handler_callback
      (OAuthServer.handler_callback OAuthServer.init "/first")
      "/second").path = some "/second" := rfl

/-- Claim C2 (amended): a second `handler_callback` is not discarded: the
state stays completed but the stored path is overwritten with the second
invocation's path. -/
theorem claim_C2_amended (s : OAuthServer) (firstPath secondPath : String) :
    ((s.handler_callback firstPath).handler_callback secondPath).completed = true ∧
    ((s.handler_callback firstPath).handler_callback secondPath).path
      = some secondPath ∧
    ((s.handler_callback firstPath).handler_callback secondPath).cancelled
      = s.cancelled :=
  ⟨rfl, rfl, rfl⟩

/-- Claim C4: when the wait loop of `wait_for_call` exits, the cancelled
flag forces the `None` return; failing that, the completed flag forces the
parsed-parameters return; and with neither flag set the call raises the
invariant-violation exception instead of returning normally. -/
theorem claim_C4_wait_dispatch (s : OAuthServer) :
    (s.cancelled = true →
      s.wait_for_call_exit = WaitResult.cancelledNone) ∧
    (s.cancelled = false → s.completed = true →
      s.wait_for_call_exit =
        WaitResult.completedParams (parse_qs (urlparseQuery (s.path.getD "")))) ∧
    (s.cancelled = false → s.completed = false →
      s.wait_for_call_exit = WaitResult.invariantViolation) := by
  refine ⟨fun h => ?_, fun h1 h2 => ?_, fun h1 h2 => ?_⟩ <;>
    simp [OAuthServer.wait_for_call_exit, *]

/-- Claim C4 witness: the three dispatch outcomes at concrete states. -/
theorem claim_C4_witness :
    (OAuthServer.mk true false none).wait_for_call_exit
      = WaitResult.cancelledNone ∧
    (OAuthServer.mk false true (some "/cb?a=1")).wait_for_call_exit
      = WaitResult.completedParams
          (parse_qs (urlparseQuery
            ((OAuthServer.mk false true (some "/cb?a=1")).path.getD ""))) ∧
    (OAuthServer.mk false false none).wait_for_call_exit
      = WaitResult.invariantViolation :=
  ⟨(claim_C4_wait_dispatch _).1 rfl,
   (claim_C4_wait_dispatch _).2.1 rfl rfl,
   (claim_C4_wait_dispatch _).2.2 rfl rfl⟩

/-- Claim C9: a completed, non-cancelled wait on the captured path
`/monzo_callback?code=ABC&state=XYZ` returns the mapping sending
`"code"` to `["ABC"]` and `"state"` to `["XYZ"]`; and in general the
returned mapping sends each query-parameter name to the ordered sequence
of its string values, preserving repeated keys (illustrated by the
repeated-key query `a=1&b=2&a=3`). -/
theorem claim_C9_parsed_parameters :
    (∀ s : OAuthServer, s.cancelled = false → s.completed = true →
        s.path = some "/monzo_callback?code=ABC&state=XYZ" →
        s.wait_for_call_exit =
          WaitResult.completedParams [("code", ["ABC"]), ("state", ["XYZ"])]) ∧
    (∀ qs k : String,
        qsGet (parse_qs qs) k =
          if valuesFor k (parse_qsl qs) = [] then none
          else some (valuesFor k (parse_qsl qs))) ∧
    parse_qs "a=1&b=2&a=3" = [("a", ["1", "3"]), ("b", ["2"])] := by
  refine ⟨?_, qsGet_parse_qs, by decide⟩
  intro s h1 h2 h3
  simp only [OAuthServer.wait_for_call_exit, h1, h2, h3, Bool.false_eq_true,
    if_false, if_true, Option.getD_some]
  decide

/-- Claim C9 witness: the completed-path instance at a concrete state. -/
theorem claim_C9_witness :
    (OAuthServer.mk false true
        (some "/monzo_callback?code=ABC&state=XYZ")).wait_for_call_exit
      = WaitResult.completedParams [("code", ["ABC"]), ("state", ["XYZ"])] :=
  claim_C9_parsed_parameters.1 _ rfl rfl rfl

/-! ## Claims about `authenticate` -/

/-- Claim C3 counterexample: `authenticate` does not extract a single
`code` string — `parameters["code"]` is the full `parse_qs` value list and
is sent as the `code` field as-is: with two code values both are sent and
no error is raised. -/
theorem claim_C3_counterexample :
    authenticate_after_wait "TOK" "cid" "sec"
        (some [("code", ["A", "B"]), ("state", ["TOK"])]) =
      AuthOutcome.tokenExchange
        { grant_type := "authorization_code"
          client_id := "cid"
          client_secret := "sec"
          redirect_uri := redirect_uri
          code := ["A", "B"] } := by
  decide

/-- Claim C3 (amended): whenever the callback parameters carry a `code`
key and a matching single `state` value, `authenticate` sends the entire
list of `code` values — however many there are — as the `code` field of
the token-exchange POST body, without extracting a single string. -/
theorem claim_C3_amended (state_token client_id client_secret : String)
    (params : List (String × List String)) (codeValues : List String)
    (hc : qsGet params "code" = some codeValues)
    (hs : qsGet params "state" = some [state_token]) :
    authenticate_after_wait state_token client_id client_secret (some params) =
      AuthOutcome.tokenExchange
        { grant_type := "authorization_code"
          client_id := client_id
          client_secret := client_secret
          redirect_uri := redirect_uri
          code := codeValues } := by
  simp [authenticate_after_wait, hc, hs]

/-- Claim C3 witness: a single-valued `code` parameter is still sent as
the one-element list, at concrete inputs. -/
theorem claim_C3_witness :
    authenticate_after_wait "TOK" "cid" "sec"
        (some [("code", ["ABC"]), ("state", ["TOK"])]) =
      AuthOutcome.tokenExchange
        { grant_type := "authorization_code"
          client_id := "cid"
          client_secret := "sec"
          redirect_uri := redirect_uri
          code := ["ABC"] } :=
  claim_C3_amended "TOK" "cid" "sec" _ _ (by decide) (by decide)

/-- Claim C5: when the parameters carry a `code` key but the `state`
parameter is absent, multi-valued, or a single value different from the
client's state token, `authenticate` raises before the token-exchange POST
and the stored access token is unchanged. -/
theorem claim_C5_state_validation (state_token client_id client_secret : String)
    (previous : Option String) (exchanged : String)
    (params : List (String × List String)) (codeValues : List String)
    (hc : qsGet params "code" = some codeValues)
    (hs : qsGet params "state" = none ∨
          (∃ vs, qsGet params "state" = some vs ∧ 2 ≤ vs.length) ∨
          (∃ v, qsGet params "state" = some [v] ∧ v ≠ state_token)) :
    (authenticate_after_wait state_token client_id client_secret
        (some params)).isExchange = false ∧
    access_token_after previous
      (authenticate_after_wait state_token client_id client_secret (some params))
      exchanged = previous := by
  rcases hs with h | ⟨vs, h, hlen⟩ | ⟨v, h, hne⟩
  · simp [authenticate_after_wait, hc, h, AuthOutcome.isExchange,
      access_token_after]
  · have hlen1 : vs.length ≠ 1 := by omega
    simp [authenticate_after_wait, hc, h, hlen1, AuthOutcome.isExchange,
      access_token_after]
  · simp [authenticate_after_wait, hc, h, Ne.symm hne, AuthOutcome.isExchange,
      access_token_after]

/-- Claim C5 witness: a mismatched single `state` value at concrete
inputs never reaches the exchange and keeps the access token. -/
theorem claim_C5_witness :
    (authenticate_after_wait "TOK" "cid" "sec"
        (some [("code", ["ABC"]), ("state", ["BAD"])])).isExchange = false ∧
    access_token_after none
      (authenticate_after_wait "TOK" "cid" "sec"
        (some [("code", ["ABC"]), ("state", ["BAD"])]))
      "tok_live_1" = none :=
  claim_C5_state_validation "TOK" "cid" "sec" none "tok_live_1"
    [("code", ["ABC"]), ("state", ["BAD"])] ["ABC"]
    (by decide) (Or.inr (Or.inr ⟨"BAD", by decide, by decide⟩))

/-- Claim C10: with no `code` key among the parsed parameters,
`authenticate` fails with the `KeyError` from `parameters["code"]`,
before any state validation: whatever the `state` entries hold, the
outcome is exactly that key-lookup error. -/
theorem claim_C10_missing_code (state_token client_id client_secret : String)
    (params : List (String × List String))
    (h : qsGet params "code" = none) :
    authenticate_after_wait state_token client_id client_secret (some params) =
      AuthOutcome.keyError "code" := by
  simp [authenticate_after_wait, h]

/-- Claim C10 witness: parameters with a simultaneously invalid `state`
and no `code` still fail with the `code` key error. -/
theorem claim_C10_witness :
    authenticate_after_wait "TOK" "cid" "sec"
        (some [("state", ["WRONG", "X"])]) = AuthOutcome.keyError "code" :=
  claim_C10_missing_code "TOK" "cid" "sec" _ (by decide)

/-! ## Claims about the random tokens and pot requests -/

/-- A concrete random oracle always answering index 8, where the alphabet
holds the character `I`. -/
def pickNinth : Nat → Fin alphabetList.length := fun _ => ⟨8, by decide⟩

/-- Claim C6 counterexample: the alphabet of `random_string` contains the
visually confusable uppercase `I`, and a possible 20-character state token
contains it. -/
theorem claim_C6_counterexample :
    'I' ∈ alphabetList ∧
    (random_string pickNinth 20).length = 20 ∧
    'I' ∈ (random_string pickNinth 20).toList := by
  refine ⟨by decide, by decide, by decide⟩

/-- Claim C6 (amended): every generated state token is exactly 20
characters drawn from `_SECRETS_ALPHABET`, which excludes `0`, `1`, `O`,
`l` and lowercase `i` — but does contain uppercase `I`. -/
theorem claim_C6_amended (pick : Nat → Fin alphabetList.length) :
    (random_string pick 20).length = 20 ∧
    ((random_string pick 20).toList.all
      (fun c => alphabetList.contains c)) = true ∧
    alphabetList.contains '0' = false ∧
    alphabetList.contains '1' = false ∧
    alphabetList.contains 'O' = false ∧
    alphabetList.contains 'l' = false ∧
    alphabetList.contains 'i' = false ∧
    alphabetList.contains 'I' = true := by
  refine ⟨?_, ?_, by decide, by decide, by decide, by decide, by decide,
    by decide⟩
  · simp [random_string, String.length]
  · simp only [random_string, String.toList, List.all_eq_true]
    intro c hc
    simp only [String.mk, List.mem_map] at hc
    obtain ⟨i, _, rfl⟩ := hc
    exact List.elem_eq_true_of_mem (alphabetList.get_mem _ _)

/-- Claim C7: both pot-move methods default their `dedupe_id` to a token
fixed once when the method definition was evaluated, so any two calls of
the same method that omit the argument share that token, while an explicit
argument is used verbatim. -/
theorem claim_C7_dedupe_defaults (pickD pickW : Nat → Fin alphabetList.length)
    (acct1 acct2 : String) (amt1 amt2 : Int) (explicit : String) :
    (deposit_into_pot (moduleDefaults pickD pickW) acct1 amt1 none).dedupe_id
      = (deposit_into_pot (moduleDefaults pickD pickW) acct2 amt2 none).dedupe_id ∧
    (withdraw_from_pot (moduleDefaults pickD pickW) acct1 amt1 none).dedupe_id
      = (withdraw_from_pot (moduleDefaults pickD pickW) acct2 amt2 none).dedupe_id ∧
    (deposit_into_pot (moduleDefaults pickD pickW) acct1 amt1 none).dedupe_id
      = random_string pickD 20 ∧
    (withdraw_from_pot (moduleDefaults pickD pickW) acct1 amt1 none).dedupe_id
      = random_string pickW 20 ∧
    (deposit_into_pot (moduleDefaults pickD pickW) acct1 amt1
        (some explicit)).dedupe_id = explicit ∧
    (withdraw_from_pot (moduleDefaults pickD pickW) acct1 amt1
        (some explicit)).dedupe_id = explicit :=
  ⟨rfl, rfl, rfl, rfl, rfl, rfl⟩

/-! ## Claim about `_handle_response` -/

/-- Claim C8: `_handle_response` raises exactly on statuses outside
`[200, 300)`; each of the nine listed statuses raises its dedicated error
class, any other status outside the range raises the generic
`MonzoAPIError`, and every status inside the range returns the response
unchanged. -/
theorem claim_C8_handle_response (response : HttpResponse) :
    ((∃ e, _handle_response response = Except.error e) ↔
      (response.status_code < 200 ∨ 300 ≤ response.status_code)) ∧
    (response.status_code = 400 → _handle_response response =
      Except.error (MonzoError.monzoBadRequestError, response_error_text response)) ∧
    (response.status_code = 401 → _handle_response response =
      Except.error (MonzoError.monzoUnauthorizedError, response_error_text response)) ∧
    (response.status_code = 403 → _handle_response response =
      Except.error (MonzoError.monzoForbiddenError, response_error_text response)) ∧
    (response.status_code = 404 → _handle_response response =
      Except.error (MonzoError.monzoNotFoundError, response_error_text response)) ∧
    (response.status_code = 405 → _handle_response response =
      Except.error (MonzoError.monzoMethodNotAllowedError, response_error_text response)) ∧
    (response.status_code = 406 → _handle_response response =
      Except.error (MonzoError.monzoNotAcceptableError, response_error_text response)) ∧
    (response.status_code = 429 → _handle_response response =
      Except.error (MonzoError.monzoTooManyRequestsError, response_error_text response)) ∧
    (response.status_code = 500 → _handle_response response =
      Except.error (MonzoError.monzoInternalServerError, response_error_text response)) ∧
    (response.status_code = 504 → _handle_response response =
      Except.error (MonzoError.monzoGatewayTimeoutError, response_error_text response)) ∧
    ((response.status_code < 200 ∨ 300 ≤ response.status_code) →
      response.status_code ∉ ([400, 401, 403, 404, 405, 406, 429, 500, 504] : List Nat) →
      _handle_response response =
        Except.error (MonzoError.monzoAPIError, response_error_text response)) ∧
    (200 ≤ response.status_code → response.status_code < 300 →
      _handle_response response = Except.ok response) := by
  have named : ∀ n : Nat, response.status_code = n → (n < 200 ∨ n ≥ 300) →
      _handle_response response =
        Except.error ((error_map n).getD MonzoError.monzoAPIError,
          response_error_text response) := by
    intro n hn hrange
    have hcond : response.status_code < 200 ∨ response.status_code ≥ 300 := by
      omega
    simp only [_handle_response]
    rw [if_pos hcond, hn]
  refine ⟨⟨?_, ?_⟩, ?_, ?_, ?_, ?_, ?_, ?_, ?_, ?_, ?_, ?_, ?_⟩
  · rintro ⟨e, he⟩
    by_contra hq
    push_neg at hq
    have hcond : ¬(response.status_code < 200 ∨ response.status_code ≥ 300) := by
      omega
    simp [_handle_response, hcond] at he
  · intro h
    have hcond : response.status_code < 200 ∨ response.status_code ≥ 300 := by
      omega
    exact ⟨((error_map response.status_code).getD MonzoError.monzoAPIError,
      response_error_text response), by simp [_handle_response, hcond]⟩
  · exact fun h => by simpa [error_map] using named 400 h (by omega)
  · exact fun h => by simpa [error_map] using named 401 h (by omega)
  · exact fun h => by simpa [error_map] using named 403 h (by omega)
  · exact fun h => by simpa [error_map] using named 404 h (by omega)
  · exact fun h => by simpa [error_map] using named 405 h (by omega)
  · exact fun h => by simpa [error_map] using named 406 h (by omega)
  · exact fun h => by simpa [error_map] using named 429 h (by omega)
  · exact fun h => by simpa [error_map] using named 500 h (by omega)
  · exact fun h => by simpa [error_map] using named 504 h (by omega)
  · intro h hnot
    simp only [List.mem_cons, List.not_mem_nil, or_false] at hnot
    push_neg at hnot
    have hcond : response.status_code < 200 ∨ response.status_code ≥ 300 := by
      omega
    obtain ⟨n400, n401, n403, n404, n405, n406, n429, n500, n504⟩ := hnot
    simp [_handle_response, error_map, hcond, n400, n401, n403, n404, n405,
      n406, n429, n500, n504]
  · intro h h2
    have hcond : ¬(response.status_code < 200 ∨ response.status_code ≥ 300) := by
      omega
    simp [_handle_response, hcond]

/-- Claim C8 witness: a mapped status, an unmapped non-2xx status and a
2xx status at concrete responses. -/
theorem claim_C8_witness :
    _handle_response ⟨404, "missing"⟩ =
      Except.error (MonzoError.monzoNotFoundError,
        response_error_text ⟨404, "missing"⟩) ∧
    _handle_response ⟨302, "redirect"⟩ =
      Except.error (MonzoError.monzoAPIError,
        response_error_text ⟨302, "redirect"⟩) ∧
    _handle_response ⟨204, "no content"⟩ = Except.ok ⟨204, "no content"⟩ :=
  ⟨(claim_C8_handle_response ⟨404, "missing"⟩).2.2.2.2.1 rfl,
   (claim_C8_handle_response ⟨302, "redirect"⟩).2.2.2.2.2.2.2.2.2.2.1
     (Or.inr (by decide)) (by decide),
   (claim_C8_handle_response ⟨204, "no content"⟩).2.2.2.2.2.2.2.2.2.2.2
     (by decide) (by decide)⟩
